import Mathlib

/-!
Verification of the bounty-lifecycle core of the devasignhq mobile-app API.

The definitions below are a shallow embedding of the Hono route handlers and
the drizzle/PostgreSQL schema found in the repository sources:

* `applyToBounty`    embeds `app.post('/bounties/:id/apply')`.
* `submitWorkV1`     embeds the first version of
  `tasksRouter.post('/:bountyId/submit')` (status guard, separate writes).
* `submitWorkV2`     embeds the second version of the same route
  (`db.transaction`, no status guard).
* `requestExtension` embeds `tasksRouter.post('/:bountyId/extend')`.
* `approveSubmission` embeds `submissionsRouter.post('/:id/approve')`.
* `resolveDispute`   embeds `disputesRouter.post('/:id/resolve')`.
* `patchBounty`      embeds `bountiesRouter.patch('/:id')`.

The durable store is a record of lists of rows; each handler returns the HTTP
status code it would respond with together with the post-state of the store.
Storage-level write failures are modelled by explicit Boolean failure flags:
a write wrapped in `db.transaction` rolls the whole state back when any flag
inside the transaction is set, while bare sequential writes keep the effects
of the writes that preceded the failing one.
-/

namespace DevAsign

inductive BountyStatus
| open_
| assigned
| in_review
| completed
| cancelled
deriving DecidableEq

inductive SubmissionStatus
| pending
| approved
| rejected
| disputed
deriving DecidableEq

inductive DisputeStatus
| open_
| resolved
| dismissed
deriving DecidableEq

inductive ApplicationStatus
| pending
| accepted
| rejected
deriving DecidableEq

inductive ExtensionStatus
| pending
| approved
| rejected
deriving DecidableEq

/-- Row of the `bounties` table (drizzle schema: id, creator_id, assignee_id
nullable, status enum, deadline timestamp; the columns not used by the
verified handlers are omitted). Timestamps are integers. -/
structure Bounty where
  id : Nat
  creatorId : Nat
  assigneeId : Option Nat
  status : BountyStatus
  deadline : Int
deriving DecidableEq

/-- Row of the `submissions` table. -/
structure Submission where
  id : Nat
  bountyId : Nat
  developerId : Nat
  prUrl : String
  status : SubmissionStatus
  rejectionReason : Option String
deriving DecidableEq

/-- Row of the `disputes` table. -/
structure Dispute where
  id : Nat
  submissionId : Nat
  status : DisputeStatus
deriving DecidableEq

/-- Row of the `applications` table. -/
structure Application where
  id : Nat
  bountyId : Nat
  applicantId : Nat
  coverLetter : String
  status : ApplicationStatus
deriving DecidableEq

/-- Row of the `extension_requests` table. -/
structure ExtensionRequest where
  id : Nat
  bountyId : Nat
  developerId : Nat
  newDeadline : Int
  status : ExtensionStatus
deriving DecidableEq

/-- The durable relational store: one list of rows per table. -/
structure DB where
  bounties : List Bounty
  submissions : List Submission
  disputes : List Dispute
  applications : List Application
  extensionRequests : List ExtensionRequest
deriving DecidableEq

/-- The store-level uniqueness check backing the `applications` insert.
The drizzle schema declares
`unique("uq_application_bounty_applicant").on(table.bountyId, table.applicantId)`
(migration: `CREATE UNIQUE INDEX "applications_bounty_id_applicant_id_key"`),
so PostgreSQL raises error 23505 exactly when a row with the same
(bounty_id, applicant_id) already exists. -/
def applicationUniqueViolation (apps : List Application) (bid aid : Nat) : Bool :=
  apps.any (fun a => a.bountyId == bid && a.applicantId == aid)

/-- Embeds `app.post('/bounties/:id/apply')`: requires a cover letter
(falsy `coverLetter` is rejected with 400), loads the bounty (404 when
missing), rejects a non-open bounty with 400, then inserts the application
with status `pending`; a 23505 unique violation from the store is caught and
mapped to a 400 response ("You have already applied for this bounty").
The applicant id is taken from the request body; the handler performs no
authentication and no creator check. -/
def applyToBounty (db : DB) (bid aid : Nat) (coverLetter : String) (newId : Nat) :
    Nat × DB :=
  if coverLetter = "" then (400, db)
  else
    match db.bounties.find? (fun b => b.id == bid) with
    | none => (404, db)
    | some b =>
      if b.status ≠ BountyStatus.open_ then (400, db)
      else if applicationUniqueViolation db.applications bid aid then (400, db)
      else
        (201, { db with applications :=
          db.applications ++
            [{ id := newId, bountyId := bid, applicantId := aid,
               coverLetter := coverLetter, status := ApplicationStatus.pending }] })

/-- Modelled from the spec: the `resource-auth` middleware
(`ensureBountyAssignee`) referenced by the task routes is not among the
sources (only its callers and tests are). Per the spec's Authorization Guard,
`isAssignee(principal, bounty)` holds iff `principal.id == bounty.assigneeId`
(a null assignee is false), and a failed guard responds with Forbidden (403)
before any mutating work. -/
def ensureBountyAssignee (db : DB) (user bid : Nat) : Bool :=
  db.bounties.any (fun b => b.id == bid && b.assigneeId == some user)

/-- Modelled from the spec: the `resource-auth` middleware
(`ensureBountyCreator`) is not among the sources. Per the spec's
Authorization Guard, `isCreator(principal, bounty)` holds iff
`principal.id == bounty.creatorId`, failing with Forbidden (403). -/
def ensureBountyCreator (db : DB) (user bid : Nat) : Bool :=
  db.bounties.any (fun b => b.id == bid && b.creatorId == user)

/-- Embeds the first version of `tasksRouter.post('/:bountyId/submit')`:
after the `ensureBountyAssignee` middleware, it reloads the bounty (404 when
missing), rejects a bounty whose status is not `assigned` with 422, validates
`pr_url` (non-empty, and parseable by `new URL` — the latter abstracted as
the `prUrlValid` flag; strings are modelled post-trim, so the source's
`pr_url.trim()` is the identity here), then performs two separate writes with
no transaction: insert of the `pending` submission, followed by the update of
the bounty to `in_review`; it responds 201 with the new submission id.
`failInsert`/`failUpdate` model a storage failure of the respective write
(the route has no transaction, so a failed update keeps the insert). -/
def submitWorkV1 (db : DB) (user bid : Nat) (prUrl : String) (prUrlValid : Bool)
    (newId : Nat) (failInsert failUpdate : Bool) : Nat × DB :=
  if ensureBountyAssignee db user bid = false then (403, db)
  else
    match db.bounties.find? (fun b => b.id == bid) with
    | none => (404, db)
    | some bounty =>
      if bounty.status ≠ BountyStatus.assigned then (422, db)
      else if prUrl = "" then (400, db)
      else if prUrlValid = false then (400, db)
      else if failInsert then (500, db)
      else
        let db1 : DB :=
          { db with submissions :=
              db.submissions ++
                [{ id := newId, bountyId := bid, developerId := user,
                   prUrl := prUrl, status := SubmissionStatus.pending,
                   rejectionReason := none }] }
        if failUpdate then (500, db1)
        else
          (201, { db1 with bounties :=
            db1.bounties.map (fun b =>
              if b.id == bid then { b with status := BountyStatus.in_review } else b) })

/-- Embeds the second version of `tasksRouter.post('/:bountyId/submit')`:
loads the bounty (404 when missing), rejects a caller who is not the
assignee with 403, validates `pr_url` (non-empty and a valid http(s) URL —
`isValidHttpUrl` abstracted as the `prUrlValid` flag; strings are modelled
post-trim), then in
one `db.transaction` inserts the `pending` submission and updates the bounty
to `in_review`, responding 200. This version performs no check of the
bounty's current status. A failure of either write inside the transaction
rolls the whole transaction back. -/
def submitWorkV2 (db : DB) (user bid : Nat) (prUrl : String) (prUrlValid : Bool)
    (newId : Nat) (failInsert failUpdate : Bool) : Nat × DB :=
  match db.bounties.find? (fun b => b.id == bid) with
  | none => (404, db)
  | some bounty =>
    if bounty.assigneeId ≠ some user then (403, db)
    else if prUrl = "" then (400, db)
    else if prUrlValid = false then (400, db)
    else if failInsert || failUpdate then (500, db)
    else
      (200, { db with
        submissions :=
          db.submissions ++
            [{ id := newId, bountyId := bid, developerId := user,
               prUrl := prUrl, status := SubmissionStatus.pending,
               rejectionReason := none }],
        bounties :=
          db.bounties.map (fun b =>
            if b.id == bid then { b with status := BountyStatus.in_review } else b) })

/-- The store-level uniqueness check backing the `extension_requests` insert.
The migration (`CREATE TABLE "extension_requests" ...`) declares only the
primary key and two plain btree indexes (`extension_requests_bounty_id_idx`,
`extension_requests_developer_id_idx`); the schema test asserts exactly those
two indexes. No unique index or constraint covers
(bounty_id, developer_id), so PostgreSQL never raises 23505 for this insert
and such an insert always succeeds. -/
def extensionUniqueViolation (_reqs : List ExtensionRequest) (_bid _did : Nat) : Bool :=
  false

/-- Embeds `tasksRouter.post('/:bountyId/extend')`: after the
`ensureBountyAssignee` middleware, it parses `new_deadline` (`none` models a
missing, non-string or unparseable date, rejected with 400), rejects a
deadline not strictly in the future (`deadline <= new Date()`) with 400, then
inserts the `pending` extension request, catching a 23505 unique violation
from the store and mapping it to 409. The handler never consults the
bounty's current deadline. -/
def requestExtension (db : DB) (user bid : Nat) (now : Int)
    (newDeadline : Option Int) (newId : Nat) : Nat × DB :=
  if ensureBountyAssignee db user bid = false then (403, db)
  else
    match newDeadline with
    | none => (400, db)
    | some d =>
      if d ≤ now then (400, db)
      else if extensionUniqueViolation db.extensionRequests bid user then (409, db)
      else
        (201, { db with extensionRequests :=
          db.extensionRequests ++
            [{ id := newId, bountyId := bid, developerId := user,
               newDeadline := d, status := ExtensionStatus.pending }] })

/-- Embeds `submissionsRouter.post('/:id/approve')`: loads the submission
(404 when missing), loads its bounty and rejects a caller other than the
bounty creator with 403 (`bounty?.creatorId !== user.id`, so a missing bounty
also yields 403), rejects a submission whose status is not `pending` with
422, then in one `db.transaction` sets the submission to `approved` and the
bounty to `completed`, responding 200 (the payout trigger is a TODO in the
source). A failure of either write rolls the transaction back. -/
def approveSubmission (db : DB) (user sid : Nat) (f1 f2 : Bool) : Nat × DB :=
  match db.submissions.find? (fun s => s.id == sid) with
  | none => (404, db)
  | some s =>
    let creatorOk : Bool :=
      match db.bounties.find? (fun b => b.id == s.bountyId) with
      | some b => b.creatorId == user
      | none => false
    if !creatorOk then (403, db)
    else if s.status ≠ SubmissionStatus.pending then (422, db)
    else if f1 || f2 then (500, db)
    else
      (200, { db with
        submissions :=
          db.submissions.map (fun x =>
            if x.id == sid then { x with status := SubmissionStatus.approved } else x),
        bounties :=
          db.bounties.map (fun b =>
            if b.id == s.bountyId then { b with status := BountyStatus.completed } else b) })

/-- Embeds `disputesRouter.post('/:id/resolve')`: loads the dispute (404 when
missing), rejects a dispute whose status is not `open` with 422, loads the
referenced submission (404 when missing) and its bounty, rejects a caller
other than the bounty creator with 403, rejects a resolution other than
"resolved_developer" / "resolved_creator" with 400, then in one
`db.transaction` applies the three updates of the chosen branch:
`resolved_developer` sets dispute→resolved, submission→approved,
bounty→completed; `resolved_creator` sets dispute→dismissed,
submission→rejected, bounty→open with assignee cleared. Responds 200.
`f1 f2 f3` model storage failures of the three writes; any of them rolls the
whole transaction back. -/
def resolveDispute (db : DB) (user did : Nat) (resolution : String)
    (f1 f2 f3 : Bool) : Nat × DB :=
  match db.disputes.find? (fun d => d.id == did) with
  | none => (404, db)
  | some d =>
    if d.status ≠ DisputeStatus.open_ then (422, db)
    else
      match db.submissions.find? (fun s => s.id == d.submissionId) with
      | none => (404, db)
      | some s =>
        let creatorOk : Bool :=
          match db.bounties.find? (fun b => b.id == s.bountyId) with
          | some b => b.creatorId == user
          | none => false
        if !creatorOk then (403, db)
        else if resolution ≠ "resolved_developer" ∧ resolution ≠ "resolved_creator" then
          (400, db)
        else if resolution = "resolved_developer" then
          if f1 || f2 || f3 then (500, db)
          else
            (200, { db with
              disputes :=
                db.disputes.map (fun x =>
                  if x.id == did then { x with status := DisputeStatus.resolved } else x),
              submissions :=
                db.submissions.map (fun x =>
                  if x.id == d.submissionId then
                    { x with status := SubmissionStatus.approved } else x),
              bounties :=
                db.bounties.map (fun b =>
                  if b.id == s.bountyId then
                    { b with status := BountyStatus.completed } else b) })
        else
          if f1 || f2 || f3 then (500, db)
          else
            (200, { db with
              disputes :=
                db.disputes.map (fun x =>
                  if x.id == did then { x with status := DisputeStatus.dismissed } else x),
              submissions :=
                db.submissions.map (fun x =>
                  if x.id == d.submissionId then
                    { x with status := SubmissionStatus.rejected } else x),
              bounties :=
                db.bounties.map (fun b =>
                  if b.id == s.bountyId then
                    { b with status := BountyStatus.open_, assigneeId := none } else b) })

/-- The subset of a PATCH body relevant to the lifecycle columns: `none`
means the key is absent from the JSON body, `some v` that the spread
`...body` overwrites the column with `v`. -/
structure BountyPatch where
  status : Option BountyStatus := none
  assigneeId : Option (Option Nat) := none
deriving DecidableEq

/-- The effect of `db.update(bounties).set({ ...body, updatedAt })` on one
row: every column present in the body is overwritten, the rest keep their
values. -/
def applyPatch (p : BountyPatch) (b : Bounty) : Bounty :=
  { b with
    status := match p.status with | some st => st | none => b.status,
    assigneeId := match p.assigneeId with | some a => a | none => b.assigneeId }

/-- Embeds `bountiesRouter.patch('/:id')`: after the `ensureBountyCreator`
middleware, the handler applies the request body to the bounty row with no
validation whatsoever (the source notes "In a real app, we would validate
the body here") and responds 200. -/
def patchBounty (db : DB) (user bid : Nat) (p : BountyPatch) : Nat × DB :=
  if ensureBountyCreator db user bid = false then (403, db)
  else
    (200, { db with bounties :=
      db.bounties.map (fun b => if b.id == bid then applyPatch p b else b) })

/-- Some submission in `subs` for bounty `bid` has status `pending`. -/
def hasPendingSubmission (subs : List Submission) (bid : Nat) : Prop :=
  ∃ s ∈ subs, s.bountyId = bid ∧ s.status = SubmissionStatus.pending

/-- Some bounty row in `bs` with id `bid` has status `st`. -/
def hasBountyWithStatus (bs : List Bounty) (bid : Nat) (st : BountyStatus) : Prop :=
  ∃ b ∈ bs, b.id = bid ∧ b.status = st

/-- Some submission row in `subs` with id `sid` has status `st`. -/
def hasSubmissionWithStatus (subs : List Submission) (sid : Nat)
    (st : SubmissionStatus) : Prop :=
  ∃ s ∈ subs, s.id = sid ∧ s.status = st

/-- Some dispute row in `ds` with id `did` has status `st`. -/
def hasDisputeWithStatus (ds : List Dispute) (did : Nat) (st : DisputeStatus) : Prop :=
  ∃ d ∈ ds, d.id = did ∧ d.status = st

/-- Some bounty row in `bs` with id `bid` is back to `open` with the
assignee cleared. -/
def hasBountyOpenUnassigned (bs : List Bounty) (bid : Nat) : Prop :=
  ∃ b ∈ bs, b.id = bid ∧ b.status = BountyStatus.open_ ∧ b.assigneeId = none

/-- The spec's bounty invariant: the assignee is non-null iff the status is
one of assigned, in_review, completed. -/
def assigneeIffActive (b : Bounty) : Prop :=
  b.assigneeId ≠ none ↔
    (b.status = BountyStatus.assigned ∨ b.status = BountyStatus.in_review ∨
      b.status = BountyStatus.completed)

/-- The observable-consistency property of the spec: no bounty is in
`in_review` without a corresponding `pending` submission. -/
def inReviewHasPending (db : DB) : Prop :=
  ∀ b ∈ db.bounties, b.status = BountyStatus.in_review →
    hasPendingSubmission db.submissions b.id

instance (subs : List Submission) (bid : Nat) :
    Decidable (hasPendingSubmission subs bid) := by
  unfold hasPendingSubmission; infer_instance

instance (bs : List Bounty) (bid : Nat) (st : BountyStatus) :
    Decidable (hasBountyWithStatus bs bid st) := by
  unfold hasBountyWithStatus; infer_instance

instance (subs : List Submission) (sid : Nat) (st : SubmissionStatus) :
    Decidable (hasSubmissionWithStatus subs sid st) := by
  unfold hasSubmissionWithStatus; infer_instance

instance (ds : List Dispute) (did : Nat) (st : DisputeStatus) :
    Decidable (hasDisputeWithStatus ds did st) := by
  unfold hasDisputeWithStatus; infer_instance

instance (bs : List Bounty) (bid : Nat) :
    Decidable (hasBountyOpenUnassigned bs bid) := by
  unfold hasBountyOpenUnassigned; infer_instance

instance (b : Bounty) : Decidable (assigneeIffActive b) := by
  unfold assigneeIffActive; infer_instance

instance (db : DB) : Decidable (inReviewHasPending db) := by
  unfold inReviewHasPending; infer_instance

/-- Number of `pending` extension requests for the (bounty, developer) pair. -/
def pendingExtensionCount (reqs : List ExtensionRequest) (bid did : Nat) : Nat :=
  (reqs.filter (fun r =>
    r.bountyId == bid && r.developerId == did &&
      decide (r.status = ExtensionStatus.pending))).length

/-- Store with one open, unassigned bounty owned by creator 5; developer 7
already holds an application for it. -/
def dbApply : DB :=
  { bounties := [{ id := 1, creatorId := 5, assigneeId := none,
                   status := BountyStatus.open_, deadline := 100 }],
    submissions := [], disputes := [],
    applications := [{ id := 20, bountyId := 1, applicantId := 7,
                       coverLetter := "c", status := ApplicationStatus.pending }],
    extensionRequests := [] }

/-- Store with one open, unassigned bounty owned by creator 5. -/
def dbPatch : DB :=
  { bounties := [{ id := 1, creatorId := 5, assigneeId := none,
                   status := BountyStatus.open_, deadline := 100 }],
    submissions := [], disputes := [], applications := [], extensionRequests := [] }

/-- Store with one already `completed` bounty still carrying assignee 2. -/
def dbSubmitDone : DB :=
  { bounties := [{ id := 1, creatorId := 5, assigneeId := some 2,
                   status := BountyStatus.completed, deadline := 100 }],
    submissions := [], disputes := [], applications := [], extensionRequests := [] }

/-- Store with one `assigned` bounty (assignee 2, deadline 100). -/
def dbExtend : DB :=
  { bounties := [{ id := 1, creatorId := 5, assigneeId := some 2,
                   status := BountyStatus.assigned, deadline := 100 }],
    submissions := [], disputes := [], applications := [], extensionRequests := [] }

/-- C2: the bounty invariant `assigneeId != null ⇔ status ∈ {assigned,
in_review, completed}` holds before, yet a creator PATCH whose body carries
only `status: 'assigned'` is applied unvalidated (the source admits "In a
real app, we would validate the body here") and leaves a bounty in status
`assigned` with a null assignee, violating the invariant. -/
theorem patch_breaks_assignee_invariant :
    (∀ b ∈ dbPatch.bounties, assigneeIffActive b) ∧
    (patchBounty dbPatch 5 1 { status := some BountyStatus.assigned }).fst = 200 ∧
    ∃ b ∈ (patchBounty dbPatch 5 1 { status := some BountyStatus.assigned }).snd.bounties,
      b.id = 1 ∧ b.status = BountyStatus.assigned ∧ b.assigneeId = none ∧
        ¬ assigneeIffActive b := by
  decide

/-- C4: the second version of the submit route has no status guard: on a
bounty already `completed`, the assignee's submit succeeds (200), creates a
`pending` submission and moves the bounty to `in_review`, while the first
version of the same route rejects the same call with 422 and leaves the
store unchanged. -/
theorem submitV2_ignores_status_guard :
    (submitWorkV2 dbSubmitDone 2 1 "https://x/pr/1" true 9 false false).fst = 200 ∧
    hasPendingSubmission
      (submitWorkV2 dbSubmitDone 2 1 "https://x/pr/1" true 9 false false).snd.submissions 1 ∧
    hasBountyWithStatus
      (submitWorkV2 dbSubmitDone 2 1 "https://x/pr/1" true 9 false false).snd.bounties 1
      BountyStatus.in_review ∧
    submitWorkV1 dbSubmitDone 2 1 "https://x/pr/1" true 9 false false = (422, dbSubmitDone) := by
  decide

/-- C10: the extension-request store has no uniqueness constraint on
(bounty_id, developer_id), so two successive extend calls by the same
assignee on the same bounty both succeed with 201 and leave two `pending`
extension requests for the pair; the handler's 23505→409 branch never
fires. -/
theorem duplicate_pending_extension_requests :
    (requestExtension dbExtend 2 1 10 (some 200) 7).fst = 201 ∧
    (requestExtension (requestExtension dbExtend 2 1 10 (some 200) 7).snd
      2 1 11 (some 300) 8).fst = 201 ∧
    pendingExtensionCount
      ((requestExtension (requestExtension dbExtend 2 1 10 (some 200) 7).snd
        2 1 11 (some 300) 8).snd.extensionRequests) 1 2 = 2 := by
  decide

/-- C3 counterexample: a duplicate apply for the same (bounty, applicant)
pair hits the store uniqueness constraint, but the handler maps it to a 400
response, not a 409; no second row is created. -/
theorem apply_duplicate_returns_400_not_409 :
    applicationUniqueViolation dbApply.applications 1 7 = true ∧
    (applyToBounty dbApply 1 7 "hello" 30).fst = 400 ∧
    (applyToBounty dbApply 1 7 "hello" 30).fst ≠ 409 ∧
    (applyToBounty dbApply 1 7 "hello" 30).snd = dbApply := by
  decide

/-- C8 counterexample: the apply handler performs no creator check (the
applicant id is read from the request body), so the bounty's own creator can
apply to their open bounty: the call returns 201 and creates the
application. -/
theorem creator_can_apply_to_own_bounty :
    (∃ b ∈ dbApply.bounties, b.id = 1 ∧ b.creatorId = 5 ∧
      b.status = BountyStatus.open_) ∧
    (applyToBounty dbApply 1 5 "mine" 31).fst = 201 ∧
    ∃ a ∈ (applyToBounty dbApply 1 5 "mine" 31).snd.applications,
      a.bountyId = 1 ∧ a.applicantId = 5 := by
  decide

/-- C9 counterexample: the extend handler compares the requested deadline
only against "now", never against the bounty's current deadline: with the
bounty deadline at 100, a request for deadline 50 at time 10 succeeds with
201 and creates the row, although 50 is before the bounty's deadline. -/
theorem extend_ignores_bounty_deadline :
    (∃ b ∈ dbExtend.bounties, b.id = 1 ∧ b.deadline = 100) ∧
    (10 : Int) < 50 ∧ (50 : Int) < 100 ∧
    (requestExtension dbExtend 2 1 10 (some 50) 7).fst = 201 ∧
    (requestExtension dbExtend 2 1 10 (some 50) 7).snd.extensionRequests ≠
      dbExtend.extensionRequests := by
  decide

/-- Store in which submission 3 (bounty 1, developer 2) is already
`approved` and the bounty is `completed`. -/
def dbApproved : DB :=
  { bounties := [{ id := 1, creatorId := 5, assigneeId := some 2,
                   status := BountyStatus.completed, deadline := 100 }],
    submissions := [{ id := 3, bountyId := 1, developerId := 2, prUrl := "u",
                      status := SubmissionStatus.approved, rejectionReason := none }],
    disputes := [], applications := [], extensionRequests := [] }

/-- C7: approving a submission whose current status is not `pending` (in
particular one already `approved`) never changes the store and never
succeeds, and when the caller is the bounty creator the handler fails with
422, so the payout transition can never be triggered twice for the same
submission. -/
theorem approve_non_pending_rejected
    (db : DB) (user sid : Nat) (f1 f2 : Bool) (s : Submission)
    (hs : db.submissions.find? (fun x => x.id == sid) = some s)
    (hnp : s.status ≠ SubmissionStatus.pending) :
    (approveSubmission db user sid f1 f2).snd = db ∧
    (approveSubmission db user sid f1 f2).fst ≠ 200 ∧
    (∀ b, db.bounties.find? (fun x => x.id == s.bountyId) = some b →
      b.creatorId = user → (approveSubmission db user sid f1 f2).fst = 422) := by
  unfold approveSubmission
  rw [hs]
  cases hfb : db.bounties.find? (fun b => b.id == s.bountyId) with
  | none =>
    simp only [hfb, Bool.not_false, if_true]
    refine ⟨trivial, by decide, ?_⟩
    intro b hb
    exact absurd hb (by simp)
  | some b =>
    simp only [hfb]
    cases hcu : b.creatorId == user with
    | false =>
      simp only [Bool.not_false, if_true]
      refine ⟨trivial, by decide, ?_⟩
      intro b' hb' hcr
      injection hb' with hbb
      subst hbb
      rw [hcr] at hcu
      exact absurd hcu (by simp)
    | true =>
      simp only [Bool.not_true, Bool.false_eq_true, if_false, if_pos hnp]
      exact ⟨trivial, by decide, fun _ _ _ => trivial⟩

/-- Witness for `approve_non_pending_rejected` at a concrete store. -/
theorem approve_non_pending_rejected_witness :
    (approveSubmission dbApproved 5 3 false false).snd = dbApproved ∧
    (approveSubmission dbApproved 5 3 false false).fst ≠ 200 ∧
    (∀ b, dbApproved.bounties.find? (fun x => x.id == (1 : Nat)) = some b →
      b.creatorId = 5 → (approveSubmission dbApproved 5 3 false false).fst = 422) :=
  approve_non_pending_rejected dbApproved 5 3 false false
    { id := 3, bountyId := 1, developerId := 2, prUrl := "u",
      status := SubmissionStatus.approved, rejectionReason := none }
    (by decide) (by decide)

/-- C3 (amended): for two apply calls with identical (bountyId, applicantId)
on an open bounty, the first succeeds with 201 and creates the one
application row; the duplicate hits the store-level uniqueness constraint,
creates no second row, and is mapped by the handler to a 400 response
(rather than a 409). -/
theorem apply_duplicate_conflict_mapped_to_400
    (db : DB) (bid aid : Nat) (cl : String) (n1 n2 : Nat)
    (hcl : cl ≠ "") (b : Bounty)
    (hb : db.bounties.find? (fun x => x.id == bid) = some b)
    (hopen : b.status = BountyStatus.open_)
    (hnodup : applicationUniqueViolation db.applications bid aid = false) :
    (applyToBounty db bid aid cl n1).fst = 201 ∧
    (applyToBounty db bid aid cl n1).snd.applications =
      db.applications ++
        [{ id := n1, bountyId := bid, applicantId := aid,
           coverLetter := cl, status := ApplicationStatus.pending }] ∧
    (applyToBounty (applyToBounty db bid aid cl n1).snd bid aid cl n2).fst = 400 ∧
    (applyToBounty (applyToBounty db bid aid cl n1).snd bid aid cl n2).snd =
      (applyToBounty db bid aid cl n1).snd := by
  have h1 : applyToBounty db bid aid cl n1 =
      (201, { db with applications :=
        db.applications ++
          [{ id := n1, bountyId := bid, applicantId := aid,
             coverLetter := cl, status := ApplicationStatus.pending }] }) := by
    unfold applyToBounty
    rw [if_neg hcl, hb]
    simp [hopen, hnodup]
  have hdup : applicationUniqueViolation
      (db.applications ++
        [{ id := n1, bountyId := bid, applicantId := aid,
           coverLetter := cl, status := ApplicationStatus.pending }]) bid aid = true := by
    unfold applicationUniqueViolation
    simp
  refine ⟨by rw [h1], by rw [h1], ?_, ?_⟩
  · rw [h1]
    unfold applyToBounty
    rw [if_neg hcl]
    rw [show ({ db with applications :=
        db.applications ++
          [{ id := n1, bountyId := bid, applicantId := aid,
             coverLetter := cl, status := ApplicationStatus.pending }] } : DB).bounties =
        db.bounties from rfl, hb]
    simp [hopen, hdup]
  · rw [h1]
    unfold applyToBounty
    rw [if_neg hcl]
    rw [show ({ db with applications :=
        db.applications ++
          [{ id := n1, bountyId := bid, applicantId := aid,
             coverLetter := cl, status := ApplicationStatus.pending }] } : DB).bounties =
        db.bounties from rfl, hb]
    simp [hopen, hdup]

/-- Witness for `apply_duplicate_conflict_mapped_to_400`: developer 8
applies twice to the open bounty 1 of `dbApply`. -/
theorem apply_duplicate_conflict_mapped_to_400_witness :
    (applyToBounty dbApply 1 8 "cv" 40).fst = 201 ∧
    (applyToBounty dbApply 1 8 "cv" 40).snd.applications =
      dbApply.applications ++
        [{ id := 40, bountyId := 1, applicantId := 8,
           coverLetter := "cv", status := ApplicationStatus.pending }] ∧
    (applyToBounty (applyToBounty dbApply 1 8 "cv" 40).snd 1 8 "cv" 41).fst = 400 ∧
    (applyToBounty (applyToBounty dbApply 1 8 "cv" 40).snd 1 8 "cv" 41).snd =
      (applyToBounty dbApply 1 8 "cv" 40).snd :=
  apply_duplicate_conflict_mapped_to_400 dbApply 1 8 "cv" 40 41 (by decide)
    { id := 1, creatorId := 5, assigneeId := none,
      status := BountyStatus.open_, deadline := 100 }
    (by decide) (by decide) (by decide)

/-- C8 (amended): an apply call succeeds (201) only when the target bounty
exists and is currently `open`; an apply against a non-open bounty fails
with 400 and creates no application. The handler performs no creator check,
so the restriction `principal.id != bounty.creatorId` claimed by the spec is
not enforced (see `creator_can_apply_to_own_bounty`). -/
theorem apply_requires_open_bounty (db : DB) (bid aid : Nat) (cl : String) (n : Nat) :
    ((applyToBounty db bid aid cl n).fst = 201 →
      hasBountyWithStatus db.bounties bid BountyStatus.open_) ∧
    (∀ b, db.bounties.find? (fun x => x.id == bid) = some b →
      b.status ≠ BountyStatus.open_ →
      (applyToBounty db bid aid cl n).fst = 400 ∧
      (applyToBounty db bid aid cl n).snd = db) := by
  constructor
  · intro hsucc
    unfold applyToBounty at hsucc
    by_cases hcl : cl = ""
    · rw [if_pos hcl] at hsucc
      simp at hsucc
    · rw [if_neg hcl] at hsucc
      cases hb : db.bounties.find? (fun x => x.id == bid) with
      | none => rw [hb] at hsucc; simp at hsucc
      | some b =>
        rw [hb] at hsucc
        by_cases hst : b.status = BountyStatus.open_
        · have hmem : b ∈ db.bounties := List.mem_of_find?_eq_some hb
          have hid : b.id = bid := by simpa using List.find?_some hb
          exact ⟨b, hmem, hid, hst⟩
        · simp [hst] at hsucc
  · intro b hb hst
    unfold applyToBounty
    by_cases hcl : cl = ""
    · rw [if_pos hcl]; exact ⟨rfl, rfl⟩
    · rw [if_neg hcl, hb]
      simp [hst]

/-- Witness for `apply_requires_open_bounty`: an apply against the
`completed` bounty of `dbSubmitDone` fails with 400 and writes nothing. -/
theorem apply_requires_open_bounty_witness :
    (applyToBounty dbSubmitDone 1 8 "cv" 50).fst = 400 ∧
    (applyToBounty dbSubmitDone 1 8 "cv" 50).snd = dbSubmitDone :=
  (apply_requires_open_bounty dbSubmitDone 1 8 "cv" 50).2
    { id := 1, creatorId := 5, assigneeId := some 2,
      status := BountyStatus.completed, deadline := 100 }
    (by decide) (by decide)

/-- C9 (amended): for the assigned developer, an extension request is
created (201) exactly when the requested deadline is strictly later than
"now"; a deadline at or before "now" fails with 400 and creates no row. The
bounty's current deadline is never consulted (see
`extend_ignores_bounty_deadline`). -/
theorem extend_checks_only_now
    (db : DB) (user bid : Nat) (now d : Int) (newId : Nat)
    (ha : ensureBountyAssignee db user bid = true) :
    (d ≤ now →
      (requestExtension db user bid now (some d) newId).fst = 400 ∧
      (requestExtension db user bid now (some d) newId).snd = db) ∧
    (now < d →
      (requestExtension db user bid now (some d) newId).fst = 201 ∧
      (requestExtension db user bid now (some d) newId).snd.extensionRequests =
        db.extensionRequests ++
          [{ id := newId, bountyId := bid, developerId := user,
             newDeadline := d, status := ExtensionStatus.pending }]) := by
  have hmw : ¬ (ensureBountyAssignee db user bid = false) := by simp [ha]
  constructor
  · intro hle
    unfold requestExtension
    rw [if_neg hmw]
    simp [hle]
  · intro hlt
    unfold requestExtension
    rw [if_neg hmw]
    simp [extensionUniqueViolation, not_le.mpr hlt]

/-- Witness for `extend_checks_only_now` on the concrete store `dbExtend`. -/
theorem extend_checks_only_now_witness :
    (10 : Int) < 200 ∧
    ((requestExtension dbExtend 2 1 10 (some 200) 7).fst = 201 ∧
      (requestExtension dbExtend 2 1 10 (some 200) 7).snd.extensionRequests =
        dbExtend.extensionRequests ++
          [{ id := 7, bountyId := 1, developerId := 2,
             newDeadline := 200, status := ExtensionStatus.pending }]) :=
  ⟨by decide, (extend_checks_only_now dbExtend 2 1 10 200 7 (by decide)).2 (by decide)⟩

/-- Store with an open dispute 4 on rejected submission 3 of bounty 1
(creator 5, assignee 2). -/
def dbDispute : DB :=
  { bounties := [{ id := 1, creatorId := 5, assigneeId := some 2,
                   status := BountyStatus.in_review, deadline := 100 }],
    submissions := [{ id := 3, bountyId := 1, developerId := 2, prUrl := "u",
                      status := SubmissionStatus.rejected, rejectionReason := some "r" }],
    disputes := [{ id := 4, submissionId := 3, status := DisputeStatus.open_ }],
    applications := [], extensionRequests := [] }

/-- C5: resolving an open dispute as `resolved_developer` as the bounty
creator either fails with the transaction rolled back (500, store
unchanged) or succeeds (200) leaving the referenced submission `approved`
and the bounty `completed` — never one without the other. -/
theorem resolve_developer_updates_atomic
    (db : DB) (user did : Nat) (f1 f2 f3 : Bool)
    (d : Dispute) (hd : db.disputes.find? (fun x => x.id == did) = some d)
    (hds : d.status = DisputeStatus.open_)
    (s : Submission)
    (hs : db.submissions.find? (fun x => x.id == d.submissionId) = some s)
    (b : Bounty)
    (hb : db.bounties.find? (fun x => x.id == s.bountyId) = some b)
    (hcr : b.creatorId = user) :
    ((resolveDispute db user did "resolved_developer" f1 f2 f3).fst = 500 ∧
      (resolveDispute db user did "resolved_developer" f1 f2 f3).snd = db) ∨
    ((resolveDispute db user did "resolved_developer" f1 f2 f3).fst = 200 ∧
      hasSubmissionWithStatus
        (resolveDispute db user did "resolved_developer" f1 f2 f3).snd.submissions
        d.submissionId SubmissionStatus.approved ∧
      hasBountyWithStatus
        (resolveDispute db user did "resolved_developer" f1 f2 f3).snd.bounties
        s.bountyId BountyStatus.completed) := by
  cases hf : (f1 || f2 || f3) with
  | true =>
    left
    unfold resolveDispute
    rw [hd]
    simp [hds, hs, hb, hcr, hf]
  | false =>
    right
    unfold resolveDispute
    rw [hd]
    simp only [hds, hs, hb, hcr, hf]
    have hsid : s.id = d.submissionId := by simpa using List.find?_some hs
    have hsmem : s ∈ db.submissions := List.mem_of_find?_eq_some hs
    have hbid : b.id = s.bountyId := by simpa using List.find?_some hb
    have hbmem : b ∈ db.bounties := List.mem_of_find?_eq_some hb
    refine ⟨by simp, ?_, ?_⟩
    · refine ⟨{ s with status := SubmissionStatus.approved }, ?_, hsid, rfl⟩
      have hmap := List.mem_map_of_mem
        (f := fun x => if x.id == d.submissionId then
          { x with status := SubmissionStatus.approved } else x) hsmem
      simpa [hsid] using hmap
    · refine ⟨{ b with status := BountyStatus.completed }, ?_, hbid, rfl⟩
      have hmap := List.mem_map_of_mem
        (f := fun x => if x.id == s.bountyId then
          { x with status := BountyStatus.completed } else x) hbmem
      simpa [hbid] using hmap

/-- Witness for `resolve_developer_updates_atomic` on `dbDispute` with no
storage failure. -/
theorem resolve_developer_updates_atomic_witness :
    ((resolveDispute dbDispute 5 4 "resolved_developer" false false false).fst = 500 ∧
      (resolveDispute dbDispute 5 4 "resolved_developer" false false false).snd = dbDispute) ∨
    ((resolveDispute dbDispute 5 4 "resolved_developer" false false false).fst = 200 ∧
      hasSubmissionWithStatus
        (resolveDispute dbDispute 5 4 "resolved_developer" false false false).snd.submissions
        3 SubmissionStatus.approved ∧
      hasBountyWithStatus
        (resolveDispute dbDispute 5 4 "resolved_developer" false false false).snd.bounties
        1 BountyStatus.completed) :=
  resolve_developer_updates_atomic dbDispute 5 4 false false false
    { id := 4, submissionId := 3, status := DisputeStatus.open_ } (by decide) (by decide)
    { id := 3, bountyId := 1, developerId := 2, prUrl := "u",
      status := SubmissionStatus.rejected, rejectionReason := some "r" } (by decide)
    { id := 1, creatorId := 5, assigneeId := some 2,
      status := BountyStatus.in_review, deadline := 100 } (by decide) (by decide)

/-- C6: resolving an open dispute as `resolved_creator` as the bounty
creator either fails with the transaction rolled back (500, store
unchanged) or succeeds (200) leaving the bounty `open` with its assignee
cleared, the referenced submission `rejected`, and the dispute in the
terminal status `dismissed`. -/
theorem resolve_creator_reopens_bounty
    (db : DB) (user did : Nat) (f1 f2 f3 : Bool)
    (d : Dispute) (hd : db.disputes.find? (fun x => x.id == did) = some d)
    (hds : d.status = DisputeStatus.open_)
    (s : Submission)
    (hs : db.submissions.find? (fun x => x.id == d.submissionId) = some s)
    (b : Bounty)
    (hb : db.bounties.find? (fun x => x.id == s.bountyId) = some b)
    (hcr : b.creatorId = user) :
    ((resolveDispute db user did "resolved_creator" f1 f2 f3).fst = 500 ∧
      (resolveDispute db user did "resolved_creator" f1 f2 f3).snd = db) ∨
    ((resolveDispute db user did "resolved_creator" f1 f2 f3).fst = 200 ∧
      hasBountyOpenUnassigned
        (resolveDispute db user did "resolved_creator" f1 f2 f3).snd.bounties
        s.bountyId ∧
      hasSubmissionWithStatus
        (resolveDispute db user did "resolved_creator" f1 f2 f3).snd.submissions
        d.submissionId SubmissionStatus.rejected ∧
      hasDisputeWithStatus
        (resolveDispute db user did "resolved_creator" f1 f2 f3).snd.disputes
        did DisputeStatus.dismissed) := by
  cases hf : (f1 || f2 || f3) with
  | true =>
    left
    unfold resolveDispute
    rw [hd]
    simp [hds, hs, hb, hcr, hf]
  | false =>
    right
    unfold resolveDispute
    rw [hd]
    simp only [hds, hs, hb, hcr, hf]
    have hsid : s.id = d.submissionId := by simpa using List.find?_some hs
    have hsmem : s ∈ db.submissions := List.mem_of_find?_eq_some hs
    have hbid : b.id = s.bountyId := by simpa using List.find?_some hb
    have hbmem : b ∈ db.bounties := List.mem_of_find?_eq_some hb
    have hdid : d.id = did := by simpa using List.find?_some hd
    have hdmem : d ∈ db.disputes := List.mem_of_find?_eq_some hd
    refine ⟨by simp, ?_, ?_, ?_⟩
    · refine ⟨{ b with status := BountyStatus.open_, assigneeId := none },
        ?_, hbid, rfl, rfl⟩
      have hmap := List.mem_map_of_mem
        (f := fun x => if x.id == s.bountyId then
          { x with status := BountyStatus.open_, assigneeId := none } else x) hbmem
      simpa [hbid] using hmap
    · refine ⟨{ s with status := SubmissionStatus.rejected }, ?_, hsid, rfl⟩
      have hmap := List.mem_map_of_mem
        (f := fun x => if x.id == d.submissionId then
          { x with status := SubmissionStatus.rejected } else x) hsmem
      simpa [hsid] using hmap
    · refine ⟨{ d with status := DisputeStatus.dismissed }, ?_, hdid, rfl⟩
      have hmap := List.mem_map_of_mem
        (f := fun x => if x.id == did then
          { x with status := DisputeStatus.dismissed } else x) hdmem
      simpa [hdid] using hmap

/-- Witness for `resolve_creator_reopens_bounty` on `dbDispute` with no
storage failure. -/
theorem resolve_creator_reopens_bounty_witness :
    ((resolveDispute dbDispute 5 4 "resolved_creator" false false false).fst = 500 ∧
      (resolveDispute dbDispute 5 4 "resolved_creator" false false false).snd = dbDispute) ∨
    ((resolveDispute dbDispute 5 4 "resolved_creator" false false false).fst = 200 ∧
      hasBountyOpenUnassigned
        (resolveDispute dbDispute 5 4 "resolved_creator" false false false).snd.bounties 1 ∧
      hasSubmissionWithStatus
        (resolveDispute dbDispute 5 4 "resolved_creator" false false false).snd.submissions
        3 SubmissionStatus.rejected ∧
      hasDisputeWithStatus
        (resolveDispute dbDispute 5 4 "resolved_creator" false false false).snd.disputes
        4 DisputeStatus.dismissed) :=
  resolve_creator_reopens_bounty dbDispute 5 4 false false false
    { id := 4, submissionId := 3, status := DisputeStatus.open_ } (by decide) (by decide)
    { id := 3, bountyId := 1, developerId := 2, prUrl := "u",
      status := SubmissionStatus.rejected, rejectionReason := some "r" } (by decide)
    { id := 1, creatorId := 5, assigneeId := some 2,
      status := BountyStatus.in_review, deadline := 100 } (by decide) (by decide)

/-- Appending rows on the right preserves the existence of a pending
submission. -/
theorem hasPendingSubmission_append_left (subs l : List Submission) (bid : Nat)
    (h : hasPendingSubmission subs bid) : hasPendingSubmission (subs ++ l) bid := by
  obtain ⟨s, hmem, hp⟩ := h
  exact ⟨s, List.mem_append_left _ hmem, hp⟩

/-- Inserting submission rows cannot break the in_review/pending
consistency property. -/
theorem inReviewHasPending_append (db : DB) (l : List Submission)
    (h : inReviewHasPending db) :
    inReviewHasPending { db with submissions := db.submissions ++ l } := by
  intro b hb hst
  exact hasPendingSubmission_append_left _ _ _ (h b hb hst)

/-- The combined submit write — insert a pending submission for `bid` and
flip every bounty row with id `bid` to `in_review` — preserves the
in_review/pending consistency property. -/
theorem inReviewHasPending_submit (db : DB) (bid : Nat) (s : Submission)
    (h : inReviewHasPending db) (hsb : s.bountyId = bid)
    (hsp : s.status = SubmissionStatus.pending) :
    inReviewHasPending
      { db with
        submissions := db.submissions ++ [s],
        bounties := db.bounties.map (fun b =>
          if b.id == bid then { b with status := BountyStatus.in_review } else b) } := by
  intro b' hb' hst
  simp only [List.mem_map] at hb'
  obtain ⟨b, hb, heq⟩ := hb'
  by_cases hid : b.id = bid
  · subst heq
    refine ⟨s, List.mem_append_right _ (List.mem_singleton_self s), ?_, hsp⟩
    simp [hid, hsb]
  · subst heq
    have hbeq : (if b.id == bid then { b with status := BountyStatus.in_review } else b)
        = b := by simp [hid]
    rw [hbeq] at hst ⊢
    exact hasPendingSubmission_append_left _ _ _ (h b hb hst)

/-- The `pending` submission row inserted by both versions of the submit
route. -/
def newSubmission (newId bid user : Nat) (prUrl : String) : Submission :=
  { id := newId, bountyId := bid, developerId := user, prUrl := prUrl,
    status := SubmissionStatus.pending, rejectionReason := none }

/-- The C1 obligations for the first (non-transactional) version of the
submit route: a successful call (201) has committed both writes (bounty
`in_review` and a `pending` submission for it), and every outcome — success
or storage failure at either write — preserves the spec's observable
consistency property `inReviewHasPending`. -/
def submitAtomicV1Spec (db : DB) (user bid : Nat) (prUrl : String) (v : Bool)
    (newId : Nat) (f1 f2 : Bool) : Prop :=
  ((submitWorkV1 db user bid prUrl v newId f1 f2).fst = 201 →
    hasBountyWithStatus (submitWorkV1 db user bid prUrl v newId f1 f2).snd.bounties
      bid BountyStatus.in_review ∧
    hasPendingSubmission
      (submitWorkV1 db user bid prUrl v newId f1 f2).snd.submissions bid) ∧
  inReviewHasPending (submitWorkV1 db user bid prUrl v newId f1 f2).snd

/-- The C1 obligations for the second (transactional) version of the submit
route: a successful call (200) has committed both writes, any unsuccessful
call leaves the store exactly unchanged (the transaction is all-or-nothing),
and every outcome preserves `inReviewHasPending`. -/
def submitAtomicV2Spec (db : DB) (user bid : Nat) (prUrl : String) (v : Bool)
    (newId : Nat) (f1 f2 : Bool) : Prop :=
  ((submitWorkV2 db user bid prUrl v newId f1 f2).fst = 200 →
    hasBountyWithStatus (submitWorkV2 db user bid prUrl v newId f1 f2).snd.bounties
      bid BountyStatus.in_review ∧
    hasPendingSubmission
      (submitWorkV2 db user bid prUrl v newId f1 f2).snd.submissions bid) ∧
  ((submitWorkV2 db user bid prUrl v newId f1 f2).fst ≠ 200 →
    (submitWorkV2 db user bid prUrl v newId f1 f2).snd = db) ∧
  inReviewHasPending (submitWorkV2 db user bid prUrl v newId f1 f2).snd

/-- The first submit version meets its C1 obligations. -/
theorem submitWorkV1_atomic (db : DB) (user bid : Nat) (prUrl : String) (v : Bool)
    (newId : Nat) (f1 f2 : Bool) (hinv : inReviewHasPending db) :
    submitAtomicV1Spec db user bid prUrl v newId f1 f2 := by
  unfold submitAtomicV1Spec submitWorkV1
  split
  · exact ⟨fun h => absurd h (by simp), hinv⟩
  · split
    · exact ⟨fun h => absurd h (by simp), hinv⟩
    next bounty hfind =>
      split
      · exact ⟨fun h => absurd h (by simp), hinv⟩
      · split
        · exact ⟨fun h => absurd h (by simp), hinv⟩
        · split
          · exact ⟨fun h => absurd h (by simp), hinv⟩
          · split
            · exact ⟨fun h => absurd h (by simp), hinv⟩
            · split
              · exact ⟨fun h => absurd h (by simp),
                  inReviewHasPending_append db _ hinv⟩
              · have hid : bounty.id = bid := by simpa using List.find?_some hfind
                have hmem : bounty ∈ db.bounties := List.mem_of_find?_eq_some hfind
                refine ⟨fun _ => ⟨?_, ?_⟩, ?_⟩
                · refine ⟨{ bounty with status := BountyStatus.in_review }, ?_, hid, rfl⟩
                  have hmap := List.mem_map_of_mem
                    (f := fun b => if b.id == bid then
                      { b with status := BountyStatus.in_review } else b) hmem
                  simpa [hid] using hmap
                · exact ⟨newSubmission newId bid user prUrl,
                    List.mem_append_right _ (List.mem_singleton_self _), rfl, rfl⟩
                · exact inReviewHasPending_submit db bid
                    (newSubmission newId bid user prUrl) hinv rfl rfl

/-- The second submit version meets its C1 obligations. -/
theorem submitWorkV2_atomic (db : DB) (user bid : Nat) (prUrl : String) (v : Bool)
    (newId : Nat) (f1 f2 : Bool) (hinv : inReviewHasPending db) :
    submitAtomicV2Spec db user bid prUrl v newId f1 f2 := by
  unfold submitAtomicV2Spec submitWorkV2
  split
  · exact ⟨fun h => absurd h (by simp), fun _ => rfl, hinv⟩
  next bounty hfind =>
    split
    · exact ⟨fun h => absurd h (by simp), fun _ => rfl, hinv⟩
    · split
      · exact ⟨fun h => absurd h (by simp), fun _ => rfl, hinv⟩
      · split
        · exact ⟨fun h => absurd h (by simp), fun _ => rfl, hinv⟩
        · split
          · exact ⟨fun h => absurd h (by simp), fun _ => rfl, hinv⟩
          · have hid : bounty.id = bid := by simpa using List.find?_some hfind
            have hmem : bounty ∈ db.bounties := List.mem_of_find?_eq_some hfind
            refine ⟨fun _ => ⟨?_, ?_⟩, fun hne => absurd rfl hne, ?_⟩
            · refine ⟨{ bounty with status := BountyStatus.in_review }, ?_, hid, rfl⟩
              have hmap := List.mem_map_of_mem
                (f := fun b => if b.id == bid then
                  { b with status := BountyStatus.in_review } else b) hmem
              simpa [hid] using hmap
            · exact ⟨newSubmission newId bid user prUrl,
                List.mem_append_right _ (List.mem_singleton_self _), rfl, rfl⟩
            · exact inReviewHasPending_submit db bid
                (newSubmission newId bid user prUrl) hinv rfl rfl

/-- C1: in both versions of the submit route, a call that succeeds has
committed both writes — the `pending` submission row and the bounty's move
to `in_review` — and no outcome (success or storage failure of any write,
in either version) ever produces an observable state with a bounty in
`in_review` and no corresponding `pending` submission; in the transactional
version every unsuccessful call additionally leaves the store unchanged. -/
theorem submit_work_atomic (db : DB) (user bid : Nat) (prUrl : String) (v : Bool)
    (newId : Nat) (f1 f2 : Bool) (hinv : inReviewHasPending db) :
    submitAtomicV1Spec db user bid prUrl v newId f1 f2 ∧
    submitAtomicV2Spec db user bid prUrl v newId f1 f2 :=
  ⟨submitWorkV1_atomic db user bid prUrl v newId f1 f2 hinv,
   submitWorkV2_atomic db user bid prUrl v newId f1 f2 hinv⟩

/-- Witness for `submit_work_atomic` on the concrete store `dbExtend`. -/
theorem submit_work_atomic_witness :
    inReviewHasPending dbExtend ∧
    (submitAtomicV1Spec dbExtend 2 1 "https://x/pr/1" true 9 false false ∧
      submitAtomicV2Spec dbExtend 2 1 "https://x/pr/1" true 9 false false) :=
  ⟨by decide, submit_work_atomic dbExtend 2 1 "https://x/pr/1" true 9 false false (by decide)⟩

end DevAsign
